import Mathlib

/-!
Shallow embedding of the per-guild playback queue and voice-session state
machine of the music bot (the `queue` Map, command dispatch and the player
event handlers in the second program of the sources).

Because every claim is scoped to one guild and guilds are independent, the
model tracks a single guild: `BotState.queue` is that guild's entry of the
global `queue` Map (`none` when `queue.get(guildId)` is undefined).

The idle and error handlers installed at session creation close over the
`queueConstruct` and `connection` objects by reference, not over the Map
entry.  After `queue.delete` those closures still act on the stale objects,
so the model keeps every `queueConstruct` ever created in a heap
(`BotState.objs`), and the Map entry is an index into that heap.  An event
handler step is addressed by heap index, exactly as the JS closures are
bound to one concrete object.

External collaborators (source resolver, voice transport, chat channel) are
modelled by their observable outcome: resolution outcome and
`joinVoiceChannel` success are parameters of the play command, replies are
an append-only log, and `connection.destroy()` is a counter on the
connection (so double destruction is observable).

`player.stop()` (from the skip and stop commands) transitions the player to
idle and emits one idle event, delivered later as its own step
(`flushIdle`), matching the transport where the listener runs after the
command handler finished.  A natural end of stream or a stream error is an
`onIdle` / `onError` step delivered by the environment.
-/

/-- Playback status of the audio player created by `createAudioPlayer`. -/
inductive PlayerStatus where
  | idle
  | playing
  | paused
deriving DecidableEq, Repr

/-- A resolved song: `{ title: songInfo.title, url: songInfo.url }`. -/
structure Song where
  title : String
  url : String
deriving DecidableEq, Repr

/-- One `queueConstruct` object (lines creating
`{ voiceChannel, textChannel, connection: null, player, songs: [song] }`).
The opaque channel fields are omitted; `connection` records whether the
`connection` field is non-null (it starts as `null` and is assigned after
`joinVoiceChannel` succeeds), `connDestroys` counts calls to
`connection.destroy()`, `player` records that the player handle is present
(the construct is always created together with `createAudioPlayer()`), and
`handlers` records whether the idle and error listeners were installed
(they are attached only inside the `try` block, after a successful join). -/
structure QueueConstruct where
  songs : List Song
  connection : Bool
  connDestroys : Nat
  player : Bool
  playerStatus : PlayerStatus
  handlers : Bool
deriving DecidableEq, Repr

/-- Messages the bot sends, one constructor per literal reply in the code. -/
inductive Reply where
  | joinVoiceFirst
  | needPermissions
  | provideSong
  | onlySpotifyTracks
  | failedLoad
  | songNotFound
  | nowPlaying (title : String)
  | addedToQueue (title : String)
  | failedJoinVC
  | noSongToSkip
  | skipped
  | nothingIsPlaying
  | stoppedAndCleared
  | pausedMsg
  | resumedMsg
  | queueEmpty
  | queueList (titles : List String)
  | nowPlayingInfo (title : String)
deriving DecidableEq, Repr

/-- The whole observable state for one guild: the guild's entry in the
global `queue` Map (an index into the heap of constructs), the heap of all
`queueConstruct` objects ever created, the idle events emitted by
`player.stop()` that have not been delivered yet, and the log of replies
sent. -/
structure BotState where
  queue : Option Nat
  objs : List QueueConstruct
  pendingIdle : List Nat
  replies : List Reply
deriving DecidableEq, Repr

/-- State before any command: the Map has no entry for the guild. -/
def initState : BotState :=
  { queue := none, objs := [], pendingIdle := [], replies := [] }

/-- Outcome of the resolution block of the play command (the `try`/`catch`
around `getData` / `ytdl.getInfo` / `ytSearch`): the external resolver is a
collaborator, so its result is a parameter. -/
inductive ResolveOutcome where
  | onlySpotify
  | resolveError
  | notFound
  | found (s : Song)
deriving DecidableEq, Repr

/-- Append a reply to the log (`message.reply` / `message.channel.send`). -/
def sendReply (st : BotState) (r : Reply) : BotState :=
  { st with replies := st.replies ++ [r] }

/-- Replace heap object `i` (mutation of the shared `queueConstruct`). -/
def setObj (st : BotState) (i : Nat) (o : QueueConstruct) : BotState :=
  { st with objs := st.objs.set i o }

/-- `playSong(guildId, song)`: look up `queue.get(guildId)`; if the song
argument is absent (`if (!song) return`) do nothing; otherwise create the
stream and resource and call `serverQueue.player.play(resource)` and send
the "Now playing" message.  Stream creation itself never fails
synchronously in the code — a bad source surfaces later as a player
`error` event. -/
def playSong (st : BotState) (song : Option Song) : BotState :=
  match song with
  | none => st
  | some s =>
    match st.queue with
    | none => st
    | some i =>
      match st.objs[i]? with
      | none => st
      | some o =>
        sendReply (setObj st i { o with playerStatus := .playing }) (.nowPlaying s.title)

/-- `serverQueue.player.stop()`: if the player is not already idle it
transitions to idle and (asynchronously) fires the idle listener once; the
event is queued for later delivery.  An already idle player does nothing
and fires nothing. -/
def playerStop (st : BotState) (i : Nat) : BotState :=
  match st.objs[i]? with
  | none => st
  | some o =>
    if o.playerStatus = .idle then st
    else
      { setObj st i { o with playerStatus := .idle } with
        pendingIdle := st.pendingIdle ++ [i] }

/-- The `player.on(AudioPlayerStatus.Idle, ...)` listener of construct `i`:
`queueConstruct.songs.shift()`, then either `playSong(guildId, songs[0])`
or `connection.destroy(); queue.delete(guildId)`.  It runs only if the
listener was installed (the join succeeded). -/
def onIdle (st : BotState) (i : Nat) : BotState :=
  match st.objs[i]? with
  | none => st
  | some o =>
    if o.handlers = false then st
    else
      let songs1 := o.songs.tail
      let st1 := setObj st i { o with songs := songs1 }
      if songs1.length > 0 then
        playSong st1 songs1.head?
      else
        { setObj st1 i { o with songs := songs1, connDestroys := o.connDestroys + 1 } with
          queue := none }

/-- The `player.on('error', ...)` listener of construct `i`:
`queueConstruct.songs.shift(); playSong(guildId, queueConstruct.songs[0])`.
Unlike the idle listener it has no terminal branch: when the queue has
become empty, `songs[0]` is `undefined` and `playSong` returns without
doing anything. -/
def onError (st : BotState) (i : Nat) : BotState :=
  match st.objs[i]? with
  | none => st
  | some o =>
    if o.handlers = false then st
    else
      let songs1 := o.songs.tail
      playSong (setObj st i { o with songs := songs1 }) songs1.head?

/-- Deliver the oldest pending idle event emitted by `player.stop()`. -/
def flushIdle (st : BotState) : BotState :=
  match st.pendingIdle with
  | [] => st
  | i :: rest => onIdle { st with pendingIdle := rest } i

/-- The `queueConstruct` literal of the new-session branch:
`{ voiceChannel, textChannel, connection: null, player, songs: [song] }`
together with the freshly created idle player and no listeners yet. -/
def freshConstruct (song : Song) : QueueConstruct :=
  { songs := [song], connection := false, connDestroys := 0,
    player := true, playerStatus := .idle, handlers := false }

/-- The `play` command.  `inVoice` is `message.member.voice.channel`
being set, `hasPerms` the Connect/Speak permission check, `hasQuery` that
the argument list is non-empty, `res` the resolution outcome and `joinOk`
whether `joinVoiceChannel` succeeds (the `catch` branch runs otherwise).
With no existing session it creates the `queueConstruct` (connection still
`null`), stores it in the Map, joins, assigns the connection, subscribes,
starts the song and installs the listeners — all within one dispatch; on
join failure the `catch` deletes the Map entry and reports.  With an
existing session it appends the song and reports "Added to queue". -/
def playCommand (inVoice hasPerms hasQuery : Bool) (res : ResolveOutcome)
    (joinOk : Bool) (st : BotState) : BotState :=
  if inVoice = false then sendReply st .joinVoiceFirst
  else if hasPerms = false then sendReply st .needPermissions
  else if hasQuery = false then sendReply st .provideSong
  else
    match res with
    | .onlySpotify => sendReply st .onlySpotifyTracks
    | .resolveError => sendReply st .failedLoad
    | .notFound => sendReply st .songNotFound
    | .found song =>
      match st.queue with
      | none =>
        let i := st.objs.length
        let st1 : BotState :=
          { st with objs := st.objs ++ [freshConstruct song], queue := some i }
        if joinOk then
          let st2 := setObj st1 i
            { freshConstruct song with connection := true, handlers := true }
          playSong st2 (some song)
        else
          sendReply { st1 with queue := none } .failedJoinVC
      | some i =>
        match st.objs[i]? with
        | none => st
        | some o =>
          sendReply (setObj st i { o with songs := o.songs ++ [song] })
            (.addedToQueue song.title)

/-- The `skip` command: without a session reply "No song to skip";
otherwise `serverQueue.player.stop()` and reply "Skipped". -/
def skipCommand (st : BotState) : BotState :=
  match st.queue with
  | none => sendReply st .noSongToSkip
  | some i => sendReply (playerStop st i) .skipped

/-- The `stop` command: without a session reply "Nothing is playing";
otherwise `serverQueue.songs = []`, `serverQueue.player.stop()`,
`serverQueue.connection.destroy()`, `queue.delete(guildId)` and reply. -/
def stopCommand (st : BotState) : BotState :=
  match st.queue with
  | none => sendReply st .nothingIsPlaying
  | some i =>
    match st.objs[i]? with
    | none => st
    | some o =>
      let st1 := playerStop (setObj st i { o with songs := [] }) i
      match st1.objs[i]? with
      | none => st1
      | some o1 =>
        let st2 := setObj st1 i { o1 with connDestroys := o1.connDestroys + 1 }
        sendReply { st2 with queue := none } .stoppedAndCleared

/-- The `pause` command: `if (!serverQueue) return;` (no reply, no
change); otherwise `serverQueue.player.pause()` and reply "Paused".
`pause()` only moves a playing player to paused. -/
def pauseCommand (st : BotState) : BotState :=
  match st.queue with
  | none => st
  | some i =>
    match st.objs[i]? with
    | none => st
    | some o =>
      let status1 := if o.playerStatus = .playing then .paused else o.playerStatus
      sendReply (setObj st i { o with playerStatus := status1 }) .pausedMsg

/-- The `resume` command: `if (!serverQueue) return;` otherwise
`serverQueue.player.unpause()` and reply "Resumed".  `unpause()` only
moves a paused player back to playing. -/
def resumeCommand (st : BotState) : BotState :=
  match st.queue with
  | none => st
  | some i =>
    match st.objs[i]? with
    | none => st
    | some o =>
      let status1 := if o.playerStatus = .paused then .playing else o.playerStatus
      sendReply (setObj st i { o with playerStatus := status1 }) .resumedMsg

/-- The `queue` command: reply "Queue is empty" when there is no session
or no songs, otherwise the ordered list of titles. -/
def queueCommand (st : BotState) : BotState :=
  match st.queue with
  | none => sendReply st .queueEmpty
  | some i =>
    match st.objs[i]? with
    | none => st
    | some o =>
      if o.songs.length = 0 then sendReply st .queueEmpty
      else sendReply st (.queueList (o.songs.map Song.title))

/-- The `now` command: reply "Nothing playing" when there is no session or
no head song, otherwise the title of `songs[0]`. -/
def nowCommand (st : BotState) : BotState :=
  match st.queue with
  | none => sendReply st .nothingIsPlaying
  | some i =>
    match st.objs[i]? with
    | none => st
    | some o =>
      match o.songs.head? with
      | none => sendReply st .nothingIsPlaying
      | some s => sendReply st (.nowPlayingInfo s.title)

/-- One observable transition of the guild's state: a command dispatch, a
transport event for one of the created constructs, or delivery of a
pending idle event emitted by `player.stop()`.  Within one dispatch the
code runs synchronously on the single event loop, so intermediate states
inside a handler are never observable. -/
inductive Step : BotState → BotState → Prop where
  | play : ∀ (st : BotState) (iv hp hq : Bool) (res : ResolveOutcome) (jk : Bool),
      Step st (playCommand iv hp hq res jk st)
  | skip : ∀ st, Step st (skipCommand st)
  | stop : ∀ st, Step st (stopCommand st)
  | pause : ∀ st, Step st (pauseCommand st)
  | resume : ∀ st, Step st (resumeCommand st)
  | queueQ : ∀ st, Step st (queueCommand st)
  | nowQ : ∀ st, Step st (nowCommand st)
  | idleEvent : ∀ st (i : Nat), Step st (onIdle st i)
  | errorEvent : ∀ st (i : Nat), Step st (onError st i)
  | flush : ∀ st, Step st (flushIdle st)

/-- States reachable from the empty store by any sequence of commands and
transport events. -/
inductive Reachable : BotState → Prop where
  | init : Reachable initState
  | step : ∀ {s t : BotState}, Reachable s → Step s t → Reachable t

/-- The invariant behind claim C2: whenever the Map has an entry for the
guild, the stored `queueConstruct` exists and both its connection and its
player handle are present. -/
def SessionInv (st : BotState) : Prop :=
  ∀ i, st.queue = some i →
    ∃ o, st.objs[i]? = some o ∧ o.connection = true ∧ o.player = true

lemma sessionInv_of_queue_none {st : BotState} (h : st.queue = none) :
    SessionInv st := by
  intro i hi
  rw [h] at hi
  cases hi

lemma sessionInv_sendReply {st : BotState} (h : SessionInv st) (r : Reply) :
    SessionInv (sendReply st r) := h

lemma sessionInv_congr {st st' : BotState} (h : SessionInv st)
    (hq : st'.queue = st.queue) (ho : st'.objs = st.objs) : SessionInv st' := by
  intro i hi
  rw [hq] at hi
  rw [ho]
  exact h i hi

lemma sessionInv_setObj {st : BotState} (h : SessionInv st) (i : Nat)
    (o o' : QueueConstruct) (ho : st.objs[i]? = some o)
    (hc : o'.connection = o.connection) (hp : o'.player = o.player) :
    SessionInv (setObj st i o') := by
  intro j hj
  rcases h j hj with ⟨oj, hoj, hcj, hpj⟩
  by_cases hij : i = j
  · subst hij
    have hlen : i < st.objs.length := (List.getElem?_eq_some.mp ho).1
    have hoo : o = oj := Option.some.inj (ho.symm.trans hoj)
    refine ⟨o', ?_, ?_, ?_⟩
    · simpa [setObj] using List.getElem?_set_self hlen
    · rw [hc, hoo]; exact hcj
    · rw [hp, hoo]; exact hpj
  · refine ⟨oj, ?_, hcj, hpj⟩
    simpa [setObj, List.getElem?_set_ne hij] using hoj

lemma sessionInv_playSong {st : BotState} (h : SessionInv st)
    (song : Option Song) : SessionInv (playSong st song) := by
  unfold playSong
  split
  · exact h
  · split
    · exact h
    · next s i heq =>
      split
      · exact h
      · next o heq2 =>
        exact sessionInv_sendReply
          (sessionInv_setObj h i o { o with playerStatus := .playing } heq2 rfl rfl) _

lemma sessionInv_playerStop {st : BotState} (h : SessionInv st) (i : Nat) :
    SessionInv (playerStop st i) := by
  unfold playerStop
  split
  · exact h
  · next o heq =>
    split
    · exact h
    · exact sessionInv_congr
        (sessionInv_setObj h i o { o with playerStatus := .idle } heq rfl rfl) rfl rfl

lemma sessionInv_onIdle {st : BotState} (h : SessionInv st) (i : Nat) :
    SessionInv (onIdle st i) := by
  unfold onIdle
  split
  · exact h
  · next o heq =>
    split
    · exact h
    · dsimp only
      split
      · exact sessionInv_playSong
          (sessionInv_setObj h i o { o with songs := o.songs.tail } heq rfl rfl) _
      · exact sessionInv_of_queue_none rfl

lemma sessionInv_onError {st : BotState} (h : SessionInv st) (i : Nat) :
    SessionInv (onError st i) := by
  unfold onError
  split
  · exact h
  · next o heq =>
    split
    · exact h
    · exact sessionInv_playSong
        (sessionInv_setObj h i o { o with songs := o.songs.tail } heq rfl rfl) _

lemma sessionInv_flushIdle {st : BotState} (h : SessionInv st) :
    SessionInv (flushIdle st) := by
  unfold flushIdle
  split
  · exact h
  · next i rest heq =>
    exact @sessionInv_onIdle { st with pendingIdle := rest } (sessionInv_congr h rfl rfl) i


lemma sessionInv_playCommand {st : BotState} (h : SessionInv st)
    (iv hp hq : Bool) (res : ResolveOutcome) (jk : Bool) :
    SessionInv (playCommand iv hp hq res jk st) := by
  unfold playCommand
  split
  · exact h
  · split
    · exact h
    · split
      · exact h
      · split
        · exact h
        · exact h
        · exact h
        · next song =>
          split
          · dsimp only
            split
            · apply sessionInv_playSong
              intro j hj
              have hj2 : some st.objs.length = some j := hj
              have hj3 : st.objs.length = j := Option.some.inj hj2
              subst hj3
              refine ⟨{ freshConstruct song with connection := true, handlers := true },
                ?_, rfl, rfl⟩
              have hlen : st.objs.length < (st.objs ++ [freshConstruct song]).length := by
                simp
              simp [setObj, List.getElem?_set_self hlen]
            · exact sessionInv_of_queue_none rfl
          · next i heq =>
            split
            · exact h
            · next o heq2 =>
              exact sessionInv_sendReply
                (sessionInv_setObj h i o { o with songs := o.songs ++ [song] } heq2 rfl rfl) _

lemma sessionInv_skipCommand {st : BotState} (h : SessionInv st) :
    SessionInv (skipCommand st) := by
  unfold skipCommand
  split
  · exact h
  · exact sessionInv_sendReply (sessionInv_playerStop h _) _

lemma sessionInv_stopCommand {st : BotState} (h : SessionInv st) :
    SessionInv (stopCommand st) := by
  unfold stopCommand
  split
  · exact h
  · next i heq =>
    split
    · exact h
    · next o heq2 =>
      dsimp only
      split
      · exact sessionInv_playerStop
          (sessionInv_setObj h i o { o with songs := [] } heq2 rfl rfl) i
      · exact sessionInv_of_queue_none rfl

lemma sessionInv_pauseCommand {st : BotState} (h : SessionInv st) :
    SessionInv (pauseCommand st) := by
  unfold pauseCommand
  split
  · exact h
  · next i heq =>
    split
    · exact h
    · next o heq2 =>
      dsimp only
      exact sessionInv_sendReply
        (sessionInv_setObj h i o { o with playerStatus :=
          if o.playerStatus = .playing then .paused else o.playerStatus } heq2 rfl rfl) _

lemma sessionInv_resumeCommand {st : BotState} (h : SessionInv st) :
    SessionInv (resumeCommand st) := by
  unfold resumeCommand
  split
  · exact h
  · next i heq =>
    split
    · exact h
    · next o heq2 =>
      dsimp only
      exact sessionInv_sendReply
        (sessionInv_setObj h i o { o with playerStatus :=
          if o.playerStatus = .paused then .playing else o.playerStatus } heq2 rfl rfl) _

lemma sessionInv_queueCommand {st : BotState} (h : SessionInv st) :
    SessionInv (queueCommand st) := by
  unfold queueCommand
  split
  · exact h
  · split
    · exact h
    · split
      · exact h
      · exact h

lemma sessionInv_nowCommand {st : BotState} (h : SessionInv st) :
    SessionInv (nowCommand st) := by
  unfold nowCommand
  split
  · exact h
  · split
    · exact h
    · split
      · exact h
      · exact h

lemma sessionInv_step {s t : BotState} (h : SessionInv s) (hs : Step s t) :
    SessionInv t := by
  cases hs with
  | play iv hp hq res jk => exact sessionInv_playCommand h iv hp hq res jk
  | skip => exact sessionInv_skipCommand h
  | stop => exact sessionInv_stopCommand h
  | pause => exact sessionInv_pauseCommand h
  | resume => exact sessionInv_resumeCommand h
  | queueQ => exact sessionInv_queueCommand h
  | nowQ => exact sessionInv_nowCommand h
  | idleEvent i => exact sessionInv_onIdle h i
  | errorEvent i => exact sessionInv_onError h i
  | flush => exact sessionInv_flushIdle h

lemma sessionInv_reachable {st : BotState} (h : Reachable st) : SessionInv st := by
  induction h with
  | init => exact sessionInv_of_queue_none rfl
  | step _ hs ih => exact sessionInv_step ih hs

/-- C10: invoking `playSong` with an absent song (as the error handler does
after advancing past the last queued song) is a total no-op: the state —
player, replies, store — is returned unchanged, nothing is played, no
notification is sent, and nothing is thrown (`if (!song) return`). -/
theorem playSong_absent_song_noop (st : BotState) : playSong st none = st := rfl

set_option maxHeartbeats 1600000 in
/-- C5: FIFO round trip.  Enqueuing songs `a`, `b`, `c` on an empty guild
(first `play` creates the session and plays `a`, the next two append) makes
the `queue` command report the titles `[a, b, c]` in arrival order; after
one idle event for the session the stored queue is `[b, c]` and the `queue`
command reports `[b, c]`: arrival order, no reordering. -/
theorem play_sequence_fifo_round_trip (a b c : Song) :
    (queueCommand (playCommand true true true (.found c) true
        (playCommand true true true (.found b) true
          (playCommand true true true (.found a) true initState)))).replies.getLast? =
      some (.queueList [a.title, b.title, c.title]) ∧
    ((onIdle (playCommand true true true (.found c) true
        (playCommand true true true (.found b) true
          (playCommand true true true (.found a) true initState))) 0).objs[0]?).map
        QueueConstruct.songs = some [b, c] ∧
    (queueCommand (onIdle (playCommand true true true (.found c) true
        (playCommand true true true (.found b) true
          (playCommand true true true (.found a) true initState))) 0)).replies.getLast? =
      some (.queueList [b.title, c.title]) := by
  refine ⟨rfl, rfl, rfl⟩

/-- C1 (code bug): a playback-error event on an established queue drops the
current head and advances exactly like natural completion (two-song queue:
the head is dropped, the next song starts and is announced).  But when the
queue becomes empty as a result, the error handler — unlike the idle
terminal case — releases nothing and removes nothing: the session stays in
the store with a live, undestroyed connection
(`queueConstruct.songs.shift(); playSong(guildId, queueConstruct.songs[0])`
has no `connection.destroy()` / `queue.delete` branch).  The claim's
teardown half is therefore violated by the code. -/
theorem onError_advances_but_empty_queue_not_released :
    ((onError (playCommand true true true (.found ⟨"B", "uB"⟩) true
        (playCommand true true true (.found ⟨"A", "uA"⟩) true initState)) 0).objs[0]?).map
      QueueConstruct.songs = some [⟨"B", "uB"⟩] ∧
    (onError (playCommand true true true (.found ⟨"B", "uB"⟩) true
        (playCommand true true true (.found ⟨"A", "uA"⟩) true initState)) 0).replies.getLast? =
      some (.nowPlaying "B") ∧
    (onError (playCommand true true true (.found ⟨"A", "uA"⟩) true initState) 0).queue =
      some 0 ∧
    ((onError (playCommand true true true (.found ⟨"A", "uA"⟩) true initState) 0).objs[0]?).map
      QueueConstruct.songs = some [] ∧
    ((onError (playCommand true true true (.found ⟨"A", "uA"⟩) true initState) 0).objs[0]?).map
      QueueConstruct.connDestroys = some 0 ∧
    ((onError (playCommand true true true (.found ⟨"A", "uA"⟩) true initState) 0).objs[0]?).map
      QueueConstruct.connection = some true := by
  refine ⟨rfl, rfl, rfl, rfl, rfl, rfl⟩

/-- C4 (code bug): stopping twice in a row.  The second `stop` does find no
session and replies "Nothing is playing" without touching the connection.
But the first `stop` already destroys the connection twice across the
events it triggers: the command itself calls `connection.destroy()` once,
and the idle event fired by its own `serverQueue.player.stop()` runs the
idle listener on the (now stale, emptied) construct, whose empty-queue
branch calls `connection.destroy()` again — `connDestroys` ends at 2,
violating "never double-releases a connection". -/
theorem stop_twice_double_destroys_connection :
    (stopCommand (stopCommand (playCommand true true true (.found ⟨"A", "uA"⟩) true
        initState))).replies.getLast? = some .nothingIsPlaying ∧
    ((stopCommand (playCommand true true true (.found ⟨"A", "uA"⟩) true
        initState)).objs[0]?).map QueueConstruct.connDestroys = some 1 ∧
    ((flushIdle (stopCommand (stopCommand (playCommand true true true
        (.found ⟨"A", "uA"⟩) true initState)))).objs[0]?).map
      QueueConstruct.connDestroys = some 2 := by
  refine ⟨rfl, rfl, rfl⟩

/-- C8 (code bug): failures during the initial `play`.  Resolution failure
and `joinVoiceChannel` failure do abort session creation (no store entry
afterwards; the join failure is surfaced as "Failed to join VC").  But a
stream-open failure for the initial song — which surfaces as the player
`error` event — does not: the session entry is still in the store, the
connection is still held and never destroyed, and no failure message is
sent (`replies` unchanged by the event).  The claim's stream-failure case
is therefore violated by the code. -/
theorem initial_play_stream_error_leaves_session :
    (playCommand true true true .resolveError true initState).queue = none ∧
    (playCommand true true true (.found ⟨"A", "uA"⟩) false initState).queue = none ∧
    (playCommand true true true (.found ⟨"A", "uA"⟩) false initState).replies =
      [.failedJoinVC] ∧
    (onError (playCommand true true true (.found ⟨"A", "uA"⟩) true initState) 0).queue =
      some 0 ∧
    ((onError (playCommand true true true (.found ⟨"A", "uA"⟩) true initState) 0).objs[0]?).map
      QueueConstruct.connDestroys = some 0 ∧
    (onError (playCommand true true true (.found ⟨"A", "uA"⟩) true initState) 0).replies =
      (playCommand true true true (.found ⟨"A", "uA"⟩) true initState).replies := by
  refine ⟨rfl, rfl, rfl, rfl, rfl, rfl⟩

/-- C2: at every observable state transition (every state reachable by any
sequence of commands and transport events from the empty store), the guild
session stored in the Map has its connection handle present if and only if
its player handle is present — never only one of the two.  Within the one
synchronous dispatch that creates a session, the construct is stored before
`joinVoiceChannel` assigns the connection, but no other event can run
inside that dispatch, and on join failure the entry is deleted before the
dispatch ends. -/
theorem connection_present_iff_player_present (st : BotState) (h : Reachable st)
    (i : Nat) (o : QueueConstruct) (hq : st.queue = some i)
    (ho : st.objs[i]? = some o) :
    o.connection = true ↔ o.player = true := by
  rcases sessionInv_reachable h i hq with ⟨o2, ho2, hc, hp⟩
  cases Option.some.inj (ho.symm.trans ho2)
  exact ⟨fun _ => hp, fun _ => hc⟩

/-- Witness for C2 at a concrete reachable state: after one successful
initial `play` the stored construct has both handles, and the theorem
applies to it. -/
theorem connection_present_iff_player_present_witness :
    Reachable (playCommand true true true (.found ⟨"A", "uA"⟩) true initState) ∧
    (playCommand true true true (.found ⟨"A", "uA"⟩) true initState).queue = some 0 ∧
    (playCommand true true true (.found ⟨"A", "uA"⟩) true initState).objs[0]? =
      some ⟨[⟨"A", "uA"⟩], true, 0, true, .playing, true⟩ ∧
    ((⟨[⟨"A", "uA"⟩], true, 0, true, .playing, true⟩ : QueueConstruct).connection = true ↔
      (⟨[⟨"A", "uA"⟩], true, 0, true, .playing, true⟩ : QueueConstruct).player = true) :=
  ⟨Reachable.step Reachable.init
      (Step.play initState true true true (.found ⟨"A", "uA"⟩) true),
   rfl, rfl,
   connection_present_iff_player_present _
     (Reachable.step Reachable.init
       (Step.play initState true true true (.found ⟨"A", "uA"⟩) true))
     0 _ rfl rfl⟩

/-- C7: a `play` for a guild that already has a session only appends the
resolved song to the tail of `songs` and sends the "Added to queue"
notification (not "Now playing").  The full-state equality shows the frame:
the Map entry, the pending events, the construct's connection, player,
destroy count and playback status, and every other construct are untouched
— in particular no second connection is acquired and no second player is
created (the heap is only updated at `i`, never extended), regardless of
whether a hypothetical join would succeed (`jk` is irrelevant). -/
theorem play_existing_session_appends_only (st : BotState) (i : Nat)
    (o : QueueConstruct) (s : Song) (jk : Bool)
    (hq : st.queue = some i) (ho : st.objs[i]? = some o) :
    playCommand true true true (.found s) jk st =
      { st with objs := st.objs.set i { o with songs := o.songs ++ [s] },
                replies := st.replies ++ [.addedToQueue s.title] } := by
  simp [playCommand, hq, ho, sendReply, setObj]

/-- Witness for C7: the second `play` on a one-song session appends. -/
theorem play_existing_session_appends_only_witness :
    (playCommand true true true (.found ⟨"A", "uA"⟩) true initState).queue = some 0 ∧
    (playCommand true true true (.found ⟨"A", "uA"⟩) true initState).objs[0]? =
      some ⟨[⟨"A", "uA"⟩], true, 0, true, .playing, true⟩ ∧
    playCommand true true true (.found ⟨"B", "uB"⟩) true
        (playCommand true true true (.found ⟨"A", "uA"⟩) true initState) =
      { playCommand true true true (.found ⟨"A", "uA"⟩) true initState with
        objs := (playCommand true true true (.found ⟨"A", "uA"⟩) true initState).objs.set 0
          ⟨[⟨"A", "uA"⟩, ⟨"B", "uB"⟩], true, 0, true, .playing, true⟩,
        replies := (playCommand true true true (.found ⟨"A", "uA"⟩) true
          initState).replies ++ [.addedToQueue "B"] } :=
  ⟨rfl, rfl,
   play_existing_session_appends_only
     (playCommand true true true (.found ⟨"A", "uA"⟩) true initState) 0
     ⟨[⟨"A", "uA"⟩], true, 0, true, .playing, true⟩ ⟨"B", "uB"⟩ true rfl rfl⟩

/-- C9: `pause` and `resume` with no session for the guild are complete
no-ops (`if (!serverQueue) return;` — not even a reply).  With a session
they change only the player's paused state (pause moves playing to paused,
resume moves paused back to playing, anything else is left as is, matching
`player.pause()` / `player.unpause()`) and post the status message; the
full-state equalities show the queue and every other session field are
never mutated. -/
theorem pause_resume_status_only :
    (∀ st : BotState, st.queue = none → pauseCommand st = st) ∧
    (∀ st : BotState, st.queue = none → resumeCommand st = st) ∧
    (∀ (st : BotState) (i : Nat) (o : QueueConstruct),
      st.queue = some i → st.objs[i]? = some o →
      pauseCommand st =
        { st with
          objs := st.objs.set i { o with playerStatus := if o.playerStatus = .playing then .paused else o.playerStatus },
          replies := st.replies ++ [.pausedMsg] }) ∧
    (∀ (st : BotState) (i : Nat) (o : QueueConstruct),
      st.queue = some i → st.objs[i]? = some o →
      resumeCommand st =
        { st with
          objs := st.objs.set i { o with playerStatus := if o.playerStatus = .paused then .playing else o.playerStatus },
          replies := st.replies ++ [.resumedMsg] }) := by
  refine ⟨?_, ?_, ?_, ?_⟩
  · intro st hq; simp [pauseCommand, hq]
  · intro st hq; simp [resumeCommand, hq]
  · intro st i o hq ho; simp [pauseCommand, hq, ho, sendReply, setObj]
  · intro st i o hq ho; simp [resumeCommand, hq, ho, sendReply, setObj]

/-- Witness for C9: no-op on the empty store, status-only change on a
playing one-song session. -/
theorem pause_resume_status_only_witness :
    initState.queue = none ∧
    pauseCommand initState = initState ∧
    resumeCommand initState = initState ∧
    (playCommand true true true (.found ⟨"A", "uA"⟩) true initState).queue = some 0 ∧
    pauseCommand (playCommand true true true (.found ⟨"A", "uA"⟩) true initState) =
      { playCommand true true true (.found ⟨"A", "uA"⟩) true initState with
        objs := (playCommand true true true (.found ⟨"A", "uA"⟩) true
          initState).objs.set 0 ⟨[⟨"A", "uA"⟩], true, 0, true, .paused, true⟩,
        replies := (playCommand true true true (.found ⟨"A", "uA"⟩) true
          initState).replies ++ [.pausedMsg] } :=
  ⟨rfl,
   pause_resume_status_only.1 initState rfl,
   pause_resume_status_only.2.1 initState rfl,
   rfl,
   pause_resume_status_only.2.2.1
     (playCommand true true true (.found ⟨"A", "uA"⟩) true initState) 0
     ⟨[⟨"A", "uA"⟩], true, 0, true, .playing, true⟩ rfl rfl⟩

lemma setObj_objs_self {st : BotState} {i : Nat} {o : QueueConstruct}
    (o' : QueueConstruct) (ho : st.objs[i]? = some o) :
    (setObj st i o').objs[i]? = some o' := by
  have hlen : i < st.objs.length := (List.getElem?_eq_some.mp ho).1
  simp [setObj, List.getElem?_set_self hlen]

lemma playSong_some_eq {st : BotState} {i : Nat} {o : QueueConstruct} (s : Song)
    (hq : st.queue = some i) (ho : st.objs[i]? = some o) :
    playSong st (some s) =
      sendReply (setObj st i { o with playerStatus := .playing }) (.nowPlaying s.title) := by
  simp [playSong, hq, ho]

lemma stopCommand_eq {st : BotState} {i : Nat} {o : QueueConstruct}
    (hq : st.queue = some i) (ho : st.objs[i]? = some o) :
    stopCommand st =
      { queue := none,
        objs := st.objs.set i { o with songs := [], playerStatus := .idle, connDestroys := o.connDestroys + 1 },
        pendingIdle := if o.playerStatus = .idle then st.pendingIdle else st.pendingIdle ++ [i],
        replies := st.replies ++ [.stoppedAndCleared] } := by
  have hlen : i < st.objs.length := (List.getElem?_eq_some.mp ho).1
  by_cases hid : o.playerStatus = PlayerStatus.idle
  · simp [stopCommand, playerStop, setObj, sendReply, hq, ho, hid, hlen,
      List.getElem?_set_self, List.length_set, List.set_set]
  · simp [stopCommand, playerStop, setObj, sendReply, hq, ho, hid, hlen,
      List.getElem?_set_self, List.length_set, List.set_set]

/-- C3: the `stop` command.  With no session for the guild it only replies
"Nothing is playing".  With a session it clears `songs` to `[]`, stops the
player (status idle), destroys the connection (release, `connDestroys`
incremented) and deletes the guild's Map entry, replying "Stopped and
cleared queue". -/
theorem stopCommand_spec :
    (∀ st : BotState, st.queue = none →
      stopCommand st = sendReply st .nothingIsPlaying) ∧
    (∀ (st : BotState) (i : Nat) (o : QueueConstruct),
      st.queue = some i → st.objs[i]? = some o →
      (stopCommand st).queue = none ∧
      (stopCommand st).objs[i]? =
        some { o with songs := [], playerStatus := .idle, connDestroys := o.connDestroys + 1 } ∧
      (stopCommand st).replies = st.replies ++ [.stoppedAndCleared]) := by
  constructor
  · intro st hq
    simp [stopCommand, hq]
  · intro st i o hq ho
    have hlen : i < st.objs.length := (List.getElem?_eq_some.mp ho).1
    rw [stopCommand_eq hq ho]
    exact ⟨rfl, by simp [List.getElem?_set_self hlen], rfl⟩

/-- Witness for C3: `stop` on the empty store replies "Nothing is
playing"; `stop` on a playing one-song session empties the queue, stops
the player, destroys the connection and removes the entry. -/
theorem stopCommand_spec_witness :
    stopCommand initState = sendReply initState .nothingIsPlaying ∧
    (stopCommand (playCommand true true true (.found ⟨"A", "uA"⟩) true initState)).queue = none ∧
    (stopCommand (playCommand true true true (.found ⟨"A", "uA"⟩) true initState)).objs[0]? =
      some ⟨[], true, 1, true, .idle, true⟩ ∧
    (stopCommand (playCommand true true true (.found ⟨"A", "uA"⟩) true initState)).replies =
      (playCommand true true true (.found ⟨"A", "uA"⟩) true initState).replies ++
        [.stoppedAndCleared] :=
  ⟨stopCommand_spec.1 initState rfl,
   (stopCommand_spec.2 (playCommand true true true (.found ⟨"A", "uA"⟩) true initState) 0
     ⟨[⟨"A", "uA"⟩], true, 0, true, .playing, true⟩ rfl rfl).1,
   (stopCommand_spec.2 (playCommand true true true (.found ⟨"A", "uA"⟩) true initState) 0
     ⟨[⟨"A", "uA"⟩], true, 0, true, .playing, true⟩ rfl rfl).2.1,
   (stopCommand_spec.2 (playCommand true true true (.found ⟨"A", "uA"⟩) true initState) 0
     ⟨[⟨"A", "uA"⟩], true, 0, true, .playing, true⟩ rfl rfl).2.2⟩

lemma skipCommand_eq {st : BotState} {i : Nat} {o : QueueConstruct}
    (hq : st.queue = some i) (ho : st.objs[i]? = some o)
    (hid : o.playerStatus ≠ .idle) :
    skipCommand st =
      { queue := some i,
        objs := st.objs.set i { o with playerStatus := .idle },
        pendingIdle := st.pendingIdle ++ [i],
        replies := st.replies ++ [.skipped] } := by
  simp [skipCommand, playerStop, setObj, sendReply, hq, ho, hid]

/-- C6: the `skip` command.  With no session it only replies "No song to
skip".  With a session whose queue holds two songs and whose player is
playing, `skip` itself stops the playback and leaves the queue untouched,
emitting exactly one idle event (`pendingIdle = [i]`); delivering that one
event runs the idle handler once, which drops exactly the head — queue
length 2 becomes 1, the second song is the new head and starts playing —
and no further idle event is pending (no double advance). -/
theorem skipCommand_spec :
    (∀ st : BotState, st.queue = none →
      skipCommand st = sendReply st .noSongToSkip) ∧
    (∀ (st : BotState) (i : Nat) (o : QueueConstruct) (s1 s2 : Song),
      st.queue = some i → st.objs[i]? = some o → o.songs = [s1, s2] →
      o.playerStatus = .playing → o.handlers = true → st.pendingIdle = [] →
      (skipCommand st).pendingIdle = [i] ∧
      ((skipCommand st).objs[i]?).map QueueConstruct.songs = some [s1, s2] ∧
      ((flushIdle (skipCommand st)).objs[i]?).map QueueConstruct.songs = some [s2] ∧
      ((flushIdle (skipCommand st)).objs[i]?).map QueueConstruct.playerStatus =
        some .playing ∧
      (flushIdle (skipCommand st)).pendingIdle = []) := by
  constructor
  · intro st hq
    simp [skipCommand, hq]
  · intro st i o s1 s2 hq ho hsongs hplay hhand hpend
    have hlen : i < st.objs.length := (List.getElem?_eq_some.mp ho).1
    have hneq : o.playerStatus ≠ .idle := by rw [hplay]; intro hcon; cases hcon
    rw [skipCommand_eq hq ho hneq]
    simp [flushIdle, onIdle, playSong, setObj, sendReply, hpend, hsongs, hplay, hhand,
      hlen, List.getElem?_set_self, List.length_set, List.set_set]

/-- Witness for C6: `skip` on the empty store, and on a playing session
holding songs A and B followed by the delivery of the one idle event it
emitted. -/
theorem skipCommand_spec_witness :
    skipCommand initState = sendReply initState .noSongToSkip ∧
    (skipCommand (playCommand true true true (.found ⟨"B", "uB"⟩) true
      (playCommand true true true (.found ⟨"A", "uA"⟩) true initState))).pendingIdle = [0] ∧
    ((flushIdle (skipCommand (playCommand true true true (.found ⟨"B", "uB"⟩) true
      (playCommand true true true (.found ⟨"A", "uA"⟩) true initState)))).objs[0]?).map
      QueueConstruct.songs = some [⟨"B", "uB"⟩] :=
  ⟨skipCommand_spec.1 initState rfl,
   (skipCommand_spec.2 (playCommand true true true (.found ⟨"B", "uB"⟩) true
       (playCommand true true true (.found ⟨"A", "uA"⟩) true initState)) 0
     ⟨[⟨"A", "uA"⟩, ⟨"B", "uB"⟩], true, 0, true, .playing, true⟩
     ⟨"A", "uA"⟩ ⟨"B", "uB"⟩ rfl rfl rfl rfl rfl rfl).1,
   (skipCommand_spec.2 (playCommand true true true (.found ⟨"B", "uB"⟩) true
       (playCommand true true true (.found ⟨"A", "uA"⟩) true initState)) 0
     ⟨[⟨"A", "uA"⟩, ⟨"B", "uB"⟩], true, 0, true, .playing, true⟩
     ⟨"A", "uA"⟩ ⟨"B", "uB"⟩ rfl rfl rfl rfl rfl rfl).2.2.1⟩
